import Mathlib

/-!
Verification of the vncensus-backend aggregation-and-synthesis pipeline.

The JavaScript source (src/routes/aiPopulation.js, aiInternet.js,
aiUrbanRural.js, chatbot.js) is shallowly embedded here.  JavaScript numbers
are modelled as rationals; a field that may be absent from a row object is
modelled as an Option, and the source's falsiness coercions (x || 0,
Number(undefined) = NaN, truthiness tests) are translated at each use site.
JavaScript's Array.prototype.sort with a numeric key comparator is a stable
sort, so it is modelled by List.insertionSort, which is stable; Math.round is
floor (x + 1/2), exact on rationals.
-/

/-- JavaScript Math.round: floor of x + 1/2 (rounds half toward positive
infinity, also for negative arguments, matching Math.round). -/
def jsRound (q : ℚ) : ℤ := Rat.floor (q + 1 / 2)

/-- Model of JavaScript Math.pow as used inside computeProjection.  Math.pow
is a transcendental floating-point function with no exact rational meaning,
so computeProjection is parameterised over the pow function; every structural
theorem below holds for an arbitrary pow.  This concrete instance is exact on
integer exponents (the only exponents at which concrete witnesses below
evaluate it) and returns 0 elsewhere. -/
def ratPow (a b : ℚ) : ℚ := if b.den = 1 then a ^ b.num else 0

/-- One row of the population_trend dataset:
a census_year and a possibly absent population field
(aiPopulation.js reads it as Number(p.population || 0)). -/
structure TrendPoint where
  census_year : ℚ
  population : Option ℚ
deriving DecidableEq, Repr

instance : Inhabited TrendPoint := ⟨⟨0, none⟩⟩

/-- One entry of the projection series pushed by the loop in
computeProjection (aiPopulation.js lines 35-40). -/
structure SeriesEntry where
  year : ℚ
  projected : ℤ
deriving DecidableEq, Repr

/-- The object returned by computeProjection (aiPopulation.js lines 44-50);
projected_population is null when the series is empty. -/
structure Projection where
  base_year : ℚ
  projection_years : ℕ
  annual_growth_rate : ℚ
  projected_population : Option ℤ
  series : List SeriesEntry
deriving DecidableEq, Repr

/-- Ascending order on trend points by census_year; the comparator
(a, b) => Number(a.census_year) - Number(b.census_year) of the source. -/
def byYearLE (a b : TrendPoint) : Prop := a.census_year ≤ b.census_year

instance : DecidableRel byYearLE :=
  fun a b => inferInstanceAs (Decidable (a.census_year ≤ b.census_year))

instance : IsTotal TrendPoint byYearLE := ⟨fun a b => le_total a.census_year b.census_year⟩

instance : IsTrans TrendPoint byYearLE := ⟨fun _ _ _ h1 h2 => le_trans h1 h2⟩

/-- The projection loop of computeProjection (aiPopulation.js lines 35-40):
for i = 1..projectionYears, projected = Math.round(prev * (1 + rate)),
push { year: baseYear + i, projected }, prev = projected. -/
def projectLoop (rate baseYear : ℚ) : ℕ → ℕ → ℚ → List SeriesEntry
  | 0, _, _ => []
  | n + 1, i, prev =>
    { year := baseYear + (i : ℚ), projected := jsRound (prev * (1 + rate)) } ::
      projectLoop rate baseYear n (i + 1) ((jsRound (prev * (1 + rate)) : ℤ) : ℚ)

/-- computeProjection (aiPopulation.js lines 20-51).  Returns none for a trend
of fewer than 2 points.  Sorts a copy of the trend ascending by census_year
(stable JS sort), takes first and last population with Number(x || 0), sets
yearsSpan to the year difference with the JS fallback span || 1 (a zero span
becomes 1), and the annual growth rate to pow(last/first, 1/yearsSpan) - 1
guarded by first > 0 (else 0).  The pow function is a parameter, see ratPow. -/
def computeProjection (pow : ℚ → ℚ → ℚ) (trend : List TrendPoint)
    (projectionYears : ℕ) : Option Projection :=
  if trend.length < 2 then none else
  let t := List.insertionSort byYearLE trend
  let first := t.headI.population.getD 0
  let last := t.getLastI.population.getD 0
  let span := t.getLastI.census_year - t.headI.census_year
  let yearsSpan := if span = 0 then 1 else span
  let annualGrowthRate := if 0 < first then pow (last / first) (1 / yearsSpan) - 1 else 0
  let baseYear := t.getLastI.census_year
  let projections := projectLoop annualGrowthRate baseYear projectionYears 1 last
  some {
    base_year := baseYear
    projection_years := projectionYears
    annual_growth_rate := annualGrowthRate
    projected_population := projections.getLast?.map SeriesEntry.projected
    series := projections }

/-- Spec-side compounding: k applications of round (prev * (1 + rate)) starting
from the last observed population, rounding at every step. -/
def compoundIter (rate last : ℚ) : ℕ → ℚ
  | 0 => last
  | k + 1 => ((jsRound (compoundIter rate last k * (1 + rate)) : ℤ) : ℚ)

theorem projectLoop_eq (rate base last : ℚ) :
    ∀ (n k : ℕ),
      projectLoop rate base n (k + 1) (compoundIter rate last k) =
        (List.range n).map (fun j =>
          { year := base + ((k + 1 + j : ℕ) : ℚ),
            projected := jsRound (compoundIter rate last (k + j) * (1 + rate)) }) := by
  intro n
  induction n with
  | zero => intro k; simp [projectLoop]
  | succ m ih =>
    intro k
    have step : ((jsRound (compoundIter rate last k * (1 + rate)) : ℤ) : ℚ) =
        compoundIter rate last (k + 1) := by
      simp [compoundIter]
    rw [List.range_succ_eq_map, List.map_cons, List.map_map]
    simp only [projectLoop]
    rw [step, ih (k + 1)]
    refine congrArg₂ List.cons ?_ ?_
    · norm_num
    · refine List.map_congr_left fun j hj => ?_
      simp only [Function.comp_apply, Nat.succ_eq_add_one]
      rw [show k + 1 + 1 + j = k + 1 + (j + 1) by omega,
        show k + 1 + j = k + (j + 1) by omega]

theorem projectLoop_eq_zero (rate base last : ℚ) (n : ℕ) :
    projectLoop rate base n 1 last =
      (List.range n).map (fun j =>
        { year := base + ((j + 1 : ℕ) : ℚ),
          projected := jsRound (compoundIter rate last j * (1 + rate)) }) := by
  have h := projectLoop_eq rate base last n 0
  rw [show compoundIter rate last 0 = last from rfl] at h
  rw [h]
  refine List.map_congr_left fun j hj => ?_
  rw [show 0 + 1 + j = j + 1 by omega, show 0 + j = j by omega]

/-- The amended projection property (see computeProjection_spec):
there is a reordering t of the trend, sorted ascending by census_year, such
that the result exists and its fields are the claimed formulas over t, with
the span-zero guard as the code's span || 1 fallback. -/
def ProjectionSpec (pow : ℚ → ℚ → ℚ) (trend : List TrendPoint) (N : ℕ) : Prop :=
  ∃ (t : List TrendPoint) (p : Projection), t.Perm trend ∧ t.Sorted byYearLE ∧
    computeProjection pow trend N = some p ∧
    p.base_year = t.getLastI.census_year ∧
    p.projection_years = N ∧
    p.annual_growth_rate =
      (if 0 < t.headI.population.getD 0 then
        pow (t.getLastI.population.getD 0 / t.headI.population.getD 0)
          (1 / (if t.getLastI.census_year - t.headI.census_year = 0 then 1
                else t.getLastI.census_year - t.headI.census_year)) - 1
       else 0) ∧
    p.series = (List.range N).map (fun j =>
      { year := p.base_year + ((j + 1 : ℕ) : ℚ),
        projected := jsRound (compoundIter p.annual_growth_rate
          (t.getLastI.population.getD 0) j * (1 + p.annual_growth_rate)) }) ∧
    p.projected_population = p.series.getLast?.map SeriesEntry.projected

/-- C1 (amended): for a trend of at least 2 points, computeProjection sorts the
points ascending by census_year (stably) and returns annual_growth_rate =
pow(last/first, 1/yearsSpan) - 1 where a zero yearsSpan is replaced by 1 (the
code's span || 1; the rate is 0 only when first is not positive); the series
compounds that rate year over year from the last observed population, rounding
at each step, and projected_population is the last element of the series. -/
theorem computeProjection_spec (pow : ℚ → ℚ → ℚ) (trend : List TrendPoint) (N : ℕ)
    (h : 2 ≤ trend.length) : ProjectionSpec pow trend N := by
  have hlen : ¬ trend.length < 2 := by omega
  refine ⟨List.insertionSort byYearLE trend, _, List.perm_insertionSort byYearLE trend,
    List.sorted_insertionSort byYearLE trend,
    (by unfold computeProjection; rw [if_neg hlen]), rfl, rfl, rfl, ?_, rfl⟩
  dsimp only
  exact projectLoop_eq_zero _ _ _ N

/-- Concrete projection input used by the witness below: two points, ten years
apart, unsorted on input. -/
def demoTrend : List TrendPoint := [⟨2019, some 110⟩, ⟨2009, some 100⟩]

/-- Witness for computeProjection_spec at a concrete trend. -/
theorem computeProjection_spec_witness :
    2 ≤ demoTrend.length ∧ ProjectionSpec ratPow demoTrend 1 :=
  ⟨by decide, computeProjection_spec ratPow demoTrend 1 (by decide)⟩

/-- C1 counterexample: the claim says the rate is 0 when yearsSpan = 0, but on
a two-point trend with both points in the same census year the code turns the
zero span into 1 (span || 1) and the rate is pow(200/100, 1) - 1 = 1, not 0. -/
theorem computeProjection_guard_counterexample :
    (computeProjection ratPow [⟨2020, some 100⟩, ⟨2020, some 200⟩] 5).map
        Projection.annual_growth_rate = some 1 ∧
      some (1 : ℚ) ≠ some (0 : ℚ) := by
  constructor
  · with_unfolding_all decide
  · with_unfolding_all decide

/-- C8: a trend with fewer than 2 points yields no projection (null), for every
pow function and horizon.  (The Array.isArray(trend) check on non-list inputs
is outside a typed embedding; every list input of length below 2 returns
null.) -/
theorem computeProjection_short_trend (pow : ℚ → ℚ → ℚ) (trend : List TrendPoint)
    (N : ℕ) (h : trend.length < 2) : computeProjection pow trend N = none := by
  unfold computeProjection
  rw [if_pos h]

/-- Witness for computeProjection_short_trend on the empty trend. -/
theorem computeProjection_short_trend_witness :
    ([] : List TrendPoint).length < 2 ∧ computeProjection ratPow [] 5 = none :=
  ⟨by decide, computeProjection_short_trend ratPow [] 5 (by decide)⟩

/-- One row of the internet_access dataset (aiInternet.js lines 12-15); every
numeric field may be absent.  The source reads household_count and
households_with_internet as Number(x || 0) and the supplied rate as
Number(r.internet_rate_pct), whose NaN for an absent field fails the isFinite
test. -/
structure InternetRow where
  province_code : Option String
  province_name : Option String
  household_count : Option ℚ
  households_with_internet : Option ℚ
  internet_rate_pct : Option ℚ
deriving DecidableEq, Repr

/-- One element of withRate in aggregateInternetAccess: the row with coerced
counts and a definite rate. -/
structure RatedRow where
  province_code : Option String
  province_name : Option String
  household_count : ℚ
  households_with_internet : ℚ
  internet_rate_pct : ℚ
deriving DecidableEq, Repr

/-- The per-row body of rows.map in aggregateInternetAccess (aiInternet.js
lines 20-37): rate = Number(r.internet_rate_pct), replaced by the derived
rate hh ? withNet / hh * 100 : 0 when not finite (absent field) or ≤ 0. -/
def rateRow (r : InternetRow) : RatedRow :=
  { province_code := r.province_code
    province_name := r.province_name
    household_count := r.household_count.getD 0
    households_with_internet := r.households_with_internet.getD 0
    internet_rate_pct :=
      match r.internet_rate_pct with
      | some v =>
        if v ≤ 0 then
          (if r.household_count.getD 0 = 0 then 0
           else r.households_with_internet.getD 0 / r.household_count.getD 0 * 100)
        else v
      | none =>
        if r.household_count.getD 0 = 0 then 0
        else r.households_with_internet.getD 0 / r.household_count.getD 0 * 100 }

/-- The claim's per-row rate, written from the spec: the supplied rate when it
is finite and positive, otherwise householdsWithInternet / householdCount x 100
with 0 for a zero denominator. -/
def claimRowRate (r : InternetRow) : ℚ :=
  match r.internet_rate_pct with
  | some v =>
    if 0 < v then v
    else if r.household_count.getD 0 = 0 then 0
    else r.households_with_internet.getD 0 / r.household_count.getD 0 * 100
  | none =>
    if r.household_count.getD 0 = 0 then 0
    else r.households_with_internet.getD 0 / r.household_count.getD 0 * 100

theorem rateRow_rate (r : InternetRow) :
    (rateRow r).internet_rate_pct = claimRowRate r := by
  unfold rateRow claimRowRate
  cases hv : r.internet_rate_pct with
  | none => rfl
  | some v =>
    dsimp only
    by_cases h : v ≤ 0
    · rw [if_pos h, if_neg (show ¬ 0 < v from not_lt.mpr h)]
    · rw [if_neg h, if_pos (show 0 < v from not_le.mp h)]

/-- The single pass of aggregateInternetAccess over its rows (aiInternet.js
lines 16-37): the JS rows.map whose closure also accumulates totalHH and
totalWithNet, modelled as an accumulator threaded in row order. -/
def aggLoop : ℚ × ℚ × List RatedRow → List InternetRow → ℚ × ℚ × List RatedRow
  | acc, [] => acc
  | (hhSum, netSum, out), r :: rest =>
    aggLoop
      (hhSum + r.household_count.getD 0, netSum + r.households_with_internet.getD 0,
        out ++ [rateRow r]) rest

theorem aggLoop_eq (rows : List InternetRow) :
    ∀ (a b : ℚ) (out : List RatedRow),
      aggLoop (a, b, out) rows =
        (a + (rows.map fun r => r.household_count.getD 0).sum,
         b + (rows.map fun r => r.households_with_internet.getD 0).sum,
         out ++ rows.map rateRow) := by
  induction rows with
  | nil => intro a b out; simp [aggLoop]
  | cons r rest ih =>
    intro a b out
    rw [List.map_cons, List.map_cons, List.map_cons, List.sum_cons, List.sum_cons]
    show aggLoop _ rest = _
    rw [ih]
    refine congrArg₂ Prod.mk (by ring) (congrArg₂ Prod.mk (by ring) ?_)
    simp

/-- Descending order on rated rows by rate: the JS comparator
(a, b) => b.internet_rate_pct - a.internet_rate_pct. -/
def rateDescLE (a b : RatedRow) : Prop := b.internet_rate_pct ≤ a.internet_rate_pct

/-- Ascending order on rated rows by rate: the JS comparator
(a, b) => a.internet_rate_pct - b.internet_rate_pct. -/
def rateAscLE (a b : RatedRow) : Prop := a.internet_rate_pct ≤ b.internet_rate_pct

instance : DecidableRel rateDescLE :=
  fun a b => inferInstanceAs (Decidable (b.internet_rate_pct ≤ a.internet_rate_pct))

instance : DecidableRel rateAscLE :=
  fun a b => inferInstanceAs (Decidable (a.internet_rate_pct ≤ b.internet_rate_pct))

instance : IsTotal RatedRow rateDescLE :=
  ⟨fun a b => le_total b.internet_rate_pct a.internet_rate_pct⟩

instance : IsTotal RatedRow rateAscLE :=
  ⟨fun a b => le_total a.internet_rate_pct b.internet_rate_pct⟩

instance : IsTrans RatedRow rateDescLE := ⟨fun _ _ _ h1 h2 => le_trans h2 h1⟩

instance : IsTrans RatedRow rateAscLE := ⟨fun _ _ _ h1 h2 => le_trans h1 h2⟩

/-- The totals object of aggregateInternetAccess (aiInternet.js lines 51-56). -/
structure NetTotals where
  households : ℚ
  households_with_internet : ℚ
  internet_rate_pct : ℚ
deriving DecidableEq, Repr

/-- The return value of aggregateInternetAccess (aiInternet.js lines 51-60). -/
structure InternetAgg where
  totals : NetTotals
  rows : List RatedRow
  top5 : List RatedRow
  bottom5 : List RatedRow
deriving DecidableEq, Repr

/-- aggregateInternetAccess (aiInternet.js lines 16-61): one pass computing
per-row rates and grand totals, two stable sorts of a copy of withRate (JS
Array.prototype.sort is stable), top5 and bottom5 as the first five of each,
and the overall rate totalHH ? totalWithNet / totalHH * 100 : 0. -/
def aggregateInternetAccess (rows : List InternetRow) : InternetAgg :=
  { totals :=
      { households := (aggLoop (0, 0, []) rows).1
        households_with_internet := (aggLoop (0, 0, []) rows).2.1
        internet_rate_pct :=
          if (aggLoop (0, 0, []) rows).1 = 0 then 0
          else (aggLoop (0, 0, []) rows).2.1 / (aggLoop (0, 0, []) rows).1 * 100 }
    rows := (aggLoop (0, 0, []) rows).2.2
    top5 := (List.insertionSort rateDescLE (aggLoop (0, 0, []) rows).2.2).take 5
    bottom5 := (List.insertionSort rateAscLE (aggLoop (0, 0, []) rows).2.2).take 5 }

theorem orderedInsert_filter_pos {α : Type} (r : α → α → Prop) [DecidableRel r]
    (p : α → Bool) (a : α) (ha : p a = true) (hw : ∀ b, p b = true → r a b) :
    ∀ l : List α, (l.orderedInsert r a).filter p = a :: l.filter p := by
  intro l
  induction l with
  | nil => simp [List.orderedInsert, ha]
  | cons b t ih =>
    by_cases hr : r a b
    · simp [List.orderedInsert, hr, ha]
    · have hb : p b = false := by
        cases hpb : p b with
        | false => rfl
        | true => exact absurd (hw b hpb) hr
      simp [List.orderedInsert, hr, hb, ih]

theorem orderedInsert_filter_neg {α : Type} (r : α → α → Prop) [DecidableRel r]
    (p : α → Bool) (a : α) (ha : p a = false) :
    ∀ l : List α, (l.orderedInsert r a).filter p = l.filter p := by
  intro l
  induction l with
  | nil => simp [List.orderedInsert, ha]
  | cons b t ih =>
    by_cases hr : r a b
    · simp [List.orderedInsert, hr, ha]
    · cases hpb : p b with
      | false => simp [List.orderedInsert, hr, hpb, ih]
      | true => simp [List.orderedInsert, hr, hpb, ih]

/-- Stability of insertionSort: sorting does not reorder elements that agree
under every test p for which p-equal elements are mutually related. -/
theorem insertionSort_filter {α : Type} (r : α → α → Prop) [DecidableRel r]
    (p : α → Bool) (hp : ∀ a b, p a = true → p b = true → r a b) :
    ∀ l : List α, (List.insertionSort r l).filter p = l.filter p := by
  intro l
  induction l with
  | nil => rfl
  | cons a t ih =>
    cases hpa : p a with
    | true =>
      simp only [List.insertionSort]
      rw [orderedInsert_filter_pos r p a hpa (fun b hb => hp a b hpa hb), ih]
      simp [hpa]
    | false =>
      simp only [List.insertionSort]
      rw [orderedInsert_filter_neg r p a hpa, ih]
      simp [hpa]

/-- A stable selection: sel is the first five of a reordering of rows that is
sorted by r and keeps rows of any given rate in their original relative
order. -/
def StableTake5 (r : RatedRow → RatedRow → Prop) (rows sel : List RatedRow) : Prop :=
  ∃ s : List RatedRow, s.Perm rows ∧ s.Sorted r ∧
    (∀ v : ℚ, s.filter (fun x => decide (x.internet_rate_pct = v)) =
      rows.filter (fun x => decide (x.internet_rate_pct = v))) ∧
    sel = s.take 5

/-- The full C2 property over the code's aggregate: per-row rates as claimed,
totals as grand sums, overall rate from the grand totals (0 for zero
households), and stable top-5 / bottom-5 selections. -/
def InternetAggSpec (rows : List InternetRow) : Prop :=
  ((aggregateInternetAccess rows).rows.map RatedRow.internet_rate_pct =
    rows.map claimRowRate) ∧
  ((aggregateInternetAccess rows).totals.households =
    (rows.map fun r => r.household_count.getD 0).sum) ∧
  ((aggregateInternetAccess rows).totals.households_with_internet =
    (rows.map fun r => r.households_with_internet.getD 0).sum) ∧
  ((aggregateInternetAccess rows).totals.internet_rate_pct =
    (if (rows.map fun r => r.household_count.getD 0).sum = 0 then 0
     else (rows.map fun r => r.households_with_internet.getD 0).sum /
       (rows.map fun r => r.household_count.getD 0).sum * 100)) ∧
  StableTake5 rateDescLE (aggregateInternetAccess rows).rows
    (aggregateInternetAccess rows).top5 ∧
  StableTake5 rateAscLE (aggregateInternetAccess rows).rows
    (aggregateInternetAccess rows).bottom5

/-- C2: aggregateInternetAccess gives every row the supplied rate when finite
and positive and the derived rate otherwise, computes the overall rate from
the grand totals (0 when total households is 0) rather than from per-row
rates, and selects top5 and bottom5 as the first five of the stable descending
and ascending sorts by rate. -/
theorem aggregateInternetAccess_spec (rows : List InternetRow) :
    InternetAggSpec rows := by
  have hacc := aggLoop_eq rows 0 0 []
  have hrows : (aggregateInternetAccess rows).rows = rows.map rateRow := by
    show (aggLoop (0, 0, []) rows).2.2 = _
    rw [hacc]
    simp
  have hh : (aggregateInternetAccess rows).totals.households =
      (rows.map fun r => r.household_count.getD 0).sum := by
    show (aggLoop (0, 0, []) rows).1 = _
    rw [hacc]
    simp
  have hn : (aggregateInternetAccess rows).totals.households_with_internet =
      (rows.map fun r => r.households_with_internet.getD 0).sum := by
    show (aggLoop (0, 0, []) rows).2.1 = _
    rw [hacc]
    simp
  refine ⟨?_, hh, hn, ?_, ?_, ?_⟩
  · rw [hrows, List.map_map]
    exact List.map_congr_left fun r hr => rateRow_rate r
  · show (if (aggLoop (0, 0, []) rows).1 = 0 then 0 else _) = _
    rw [hacc]
    simp
  · refine ⟨List.insertionSort rateDescLE (aggregateInternetAccess rows).rows,
      List.perm_insertionSort rateDescLE _, List.sorted_insertionSort rateDescLE _,
      fun v => insertionSort_filter rateDescLE _ ?_ _, rfl⟩
    intro a b hpa hpb
    rw [decide_eq_true_eq] at hpa hpb
    show b.internet_rate_pct ≤ a.internet_rate_pct
    rw [hpa, hpb]
  · refine ⟨List.insertionSort rateAscLE (aggregateInternetAccess rows).rows,
      List.perm_insertionSort rateAscLE _, List.sorted_insertionSort rateAscLE _,
      fun v => insertionSort_filter rateAscLE _ ?_ _, rfl⟩
    intro a b hpa hpb
    rw [decide_eq_true_eq] at hpa hpb
    show a.internet_rate_pct ≤ b.internet_rate_pct
    rw [hpa, hpb]

/-- One row of the urban_rural dataset (aiUrbanRural.js lines 12-15); all
fields may be absent, numeric ones are read as Number(x || 0). -/
structure UrbanRow where
  area_type : Option String
  population : Option ℚ
  household_count : Option ℚ
deriving DecidableEq, Repr

/-- The grouping key of aggregateUrbanRural: row.area_type || 'Khác', so an
absent or empty-string (falsy) area_type falls back to the sentinel. -/
def urKey (r : UrbanRow) : String :=
  match r.area_type with
  | none => "Khác"
  | some s => if s = "" then "Khác" else s

/-- One accumulated group of aggregateUrbanRural (aiUrbanRural.js lines
26-38). -/
structure UrbanGroup where
  area_type : String
  population : ℚ
  household_count : ℚ
deriving DecidableEq, Repr

/-- Insertion into the groups map: JS object keys keep first-insertion order,
so the map is an association list updated in place or extended at the end. -/
def addRow (gs : List UrbanGroup) (key : String) (pop hh : ℚ) : List UrbanGroup :=
  match gs with
  | [] => [⟨key, pop, hh⟩]
  | g :: rest =>
    if g.area_type = key then
      ⟨g.area_type, g.population + pop, g.household_count + hh⟩ :: rest
    else g :: addRow rest key pop hh

/-- The grouping loop of aggregateUrbanRural (aiUrbanRural.js lines 21-39). -/
def groupRows (rows : List UrbanRow) : List UrbanGroup :=
  rows.foldl
    (fun gs r => addRow gs (urKey r) (r.population.getD 0) (r.household_count.getD 0)) []

/-- The totals object of aggregateUrbanRural (aiUrbanRural.js line 50). -/
structure UrbanTotals where
  population : ℚ
  households : ℚ
deriving DecidableEq, Repr

/-- One item of aggregateUrbanRural's output (aiUrbanRural.js lines 41-47). -/
structure UrbanItem where
  area_type : String
  population : ℚ
  household_count : ℚ
  population_percent : ℚ
  household_percent : ℚ
deriving DecidableEq, Repr

/-- The return value of aggregateUrbanRural (aiUrbanRural.js lines 49-52). -/
structure UrbanAgg where
  totals : UrbanTotals
  items : List UrbanItem
deriving DecidableEq, Repr

/-- aggregateUrbanRural (aiUrbanRural.js lines 16-53): group rows by
area_type (sentinel 'Khác' for a falsy key), sum population and households
per group and overall, and attach percentage shares with the JS guards
totalPop ? g.population / totalPop * 100 : 0 and likewise for households. -/
def aggregateUrbanRural (rows : List UrbanRow) : UrbanAgg :=
  { totals :=
      { population := rows.foldl (fun s r => s + r.population.getD 0) 0
        households := rows.foldl (fun s r => s + r.household_count.getD 0) 0 }
    items := (groupRows rows).map fun g =>
      { area_type := g.area_type
        population := g.population
        household_count := g.household_count
        population_percent :=
          if rows.foldl (fun s r => s + r.population.getD 0) 0 = 0 then 0
          else g.population / rows.foldl (fun s r => s + r.population.getD 0) 0 * 100
        household_percent :=
          if rows.foldl (fun s r => s + r.household_count.getD 0) 0 = 0 then 0
          else g.household_count / rows.foldl (fun s r => s + r.household_count.getD 0) 0 * 100 } }

theorem foldl_add_sum {α : Type} (f : α → ℚ) (l : List α) :
    ∀ a : ℚ, l.foldl (fun s r => s + f r) a = a + (l.map f).sum := by
  induction l with
  | nil => intro a; simp
  | cons x t ih =>
    intro a
    rw [List.foldl_cons, ih, List.map_cons, List.sum_cons]
    ring

theorem addRow_sum_pop (key : String) (pop hh : ℚ) :
    ∀ gs : List UrbanGroup,
      ((addRow gs key pop hh).map UrbanGroup.population).sum =
        (gs.map UrbanGroup.population).sum + pop := by
  intro gs
  induction gs with
  | nil => simp [addRow]
  | cons g rest ih =>
    by_cases h : g.area_type = key
    · simp only [addRow, if_pos h, List.map_cons, List.sum_cons]
      ring
    · simp only [addRow, if_neg h, List.map_cons, List.sum_cons, ih]
      ring

theorem groupFold_sum_pop :
    ∀ (rows : List UrbanRow) (gs : List UrbanGroup),
      ((rows.foldl (fun gs r =>
          addRow gs (urKey r) (r.population.getD 0) (r.household_count.getD 0)) gs).map
            UrbanGroup.population).sum =
        (gs.map UrbanGroup.population).sum + (rows.map fun r => r.population.getD 0).sum := by
  intro rows
  induction rows with
  | nil => intro gs; simp
  | cons r t ih =>
    intro gs
    rw [List.foldl_cons, ih, addRow_sum_pop, List.map_cons, List.sum_cons]
    ring

/-- The groups of aggregateUrbanRural partition the rows: group populations
sum to the grand total. -/
theorem groupRows_sum_pop (rows : List UrbanRow) :
    ((groupRows rows).map UrbanGroup.population).sum =
      (rows.map fun r => r.population.getD 0).sum := by
  unfold groupRows
  rw [groupFold_sum_pop rows []]
  simp

/-- C3: every group of aggregateUrbanRural carries population_percent =
group population / total population x 100 and household_percent = group
households / total households x 100, each 0 when the corresponding total is
0; in exact rational arithmetic the population percents sum to 100 whenever
the total population is positive, and they are all 0 when it is 0. -/
theorem aggregateUrbanRural_spec (rows : List UrbanRow) :
    (∀ it ∈ (aggregateUrbanRural rows).items,
      it.population_percent =
        (if (aggregateUrbanRural rows).totals.population = 0 then 0
         else it.population / (aggregateUrbanRural rows).totals.population * 100) ∧
      it.household_percent =
        (if (aggregateUrbanRural rows).totals.households = 0 then 0
         else it.household_count / (aggregateUrbanRural rows).totals.households * 100)) ∧
    (0 < (aggregateUrbanRural rows).totals.population →
      ((aggregateUrbanRural rows).items.map UrbanItem.population_percent).sum = 100) ∧
    ((aggregateUrbanRural rows).totals.population = 0 →
      ∀ it ∈ (aggregateUrbanRural rows).items, it.population_percent = 0) := by
  have hT : (aggregateUrbanRural rows).totals.population =
      (rows.map fun r => r.population.getD 0).sum := by
    show rows.foldl _ 0 = _
    rw [foldl_add_sum]
    simp
  refine ⟨?_, ?_, ?_⟩
  · intro it hit
    obtain ⟨g, hg, rfl⟩ := List.mem_map.mp hit
    exact ⟨rfl, rfl⟩
  · intro hpos
    have hne : rows.foldl (fun s r => s + r.population.getD 0) 0 ≠ 0 := ne_of_gt hpos
    have hitems : (aggregateUrbanRural rows).items.map UrbanItem.population_percent =
        (groupRows rows).map fun g =>
          (if rows.foldl (fun s r => s + r.population.getD 0) 0 = 0 then 0
           else g.population / rows.foldl (fun s r => s + r.population.getD 0) 0 * 100) := by
      show ((groupRows rows).map _).map UrbanItem.population_percent = _
      rw [List.map_map]
      rfl
    rw [hitems]
    have hcong : ((groupRows rows).map fun g =>
        (if rows.foldl (fun s r => s + r.population.getD 0) 0 = 0 then 0
         else g.population / rows.foldl (fun s r => s + r.population.getD 0) 0 * 100)) =
        (groupRows rows).map fun g =>
          g.population * (100 / rows.foldl (fun s r => s + r.population.getD 0) 0) := by
      refine List.map_congr_left fun g hg => ?_
      rw [if_neg hne, div_mul_eq_mul_div, mul_div_assoc]
    rw [hcong, List.sum_map_mul_right]
    have hgsum : ((groupRows rows).map UrbanGroup.population).sum =
        rows.foldl (fun s r => s + r.population.getD 0) 0 := by
      rw [groupRows_sum_pop, foldl_add_sum]
      simp
    rw [hgsum, mul_comm, div_mul_cancel₀ _ hne]
  · intro h0 it hit
    have h0q : rows.foldl (fun s r => s + r.population.getD 0) 0 = 0 := h0
    obtain ⟨g, hg, rfl⟩ := List.mem_map.mp hit
    show (if rows.foldl (fun s r => s + r.population.getD 0) 0 = 0 then 0 else _) = 0
    rw [if_pos h0q]

/-- Concrete urban/rural rows used by the witness below. -/
def demoUrbanRows : List UrbanRow :=
  [⟨some "Thành thị", some 60, some 10⟩, ⟨some "Nông thôn", some 40, some 30⟩]

/-- Witness for aggregateUrbanRural_spec: a positive total whose group percents
sum to exactly 100. -/
theorem aggregateUrbanRural_spec_witness :
    0 < (aggregateUrbanRural demoUrbanRows).totals.population ∧
      ((aggregateUrbanRural demoUrbanRows).items.map UrbanItem.population_percent).sum = 100 :=
  ⟨by with_unfolding_all decide,
    (aggregateUrbanRural_spec demoUrbanRows).2.1 (by with_unfolding_all decide)⟩

/-- One row of the internet_trend dataset (aiInternet.js lines 63-66). -/
structure ITrendRow where
  census_year : ℚ
  household_count : Option ℚ
  households_with_internet : Option ℚ
  internet_rate_pct : Option ℚ
deriving DecidableEq, Repr

instance : Inhabited ITrendRow := ⟨⟨0, none, none, none⟩⟩

/-- Ascending order on internet trend rows by census_year. -/
def iYearLE (a b : ITrendRow) : Prop := a.census_year ≤ b.census_year

instance : DecidableRel iYearLE :=
  fun a b => inferInstanceAs (Decidable (a.census_year ≤ b.census_year))

instance : IsTotal ITrendRow iYearLE := ⟨fun a b => le_total a.census_year b.census_year⟩

instance : IsTrans ITrendRow iYearLE := ⟨fun _ _ _ h1 h2 => le_trans h1 h2⟩

/-- The endpoint-rate expression of summarizeTrend (aiInternet.js lines
78-90): Number(r.internet_rate_pct) || (r.household_count ?
100 * Number(r.households_with_internet || 0) / Number(r.household_count)
: 0).  A missing rate is NaN and a zero rate is falsy, both falling to the
derived rate; a missing or zero household_count is falsy and yields 0. -/
def trendRate (r : ITrendRow) : ℚ :=
  match r.internet_rate_pct with
  | some v =>
    if v = 0 then
      match r.household_count with
      | none => 0
      | some hh => if hh = 0 then 0 else 100 * r.households_with_internet.getD 0 / hh
    else v
  | none =>
    match r.household_count with
    | none => 0
    | some hh => if hh = 0 then 0 else 100 * r.households_with_internet.getD 0 / hh

/-- The object returned by summarizeTrend (aiInternet.js lines 102-110). -/
structure TrendSummary where
  first_year : ℚ
  last_year : ℚ
  first_rate : ℚ
  last_rate : ℚ
  change : ℚ
  avg_change_per_year : ℚ
  direction : String
deriving DecidableEq, Repr

/-- summarizeTrend (aiInternet.js lines 67-111): null for fewer than 2 points;
otherwise sort ascending by census_year (stable JS sort), compute endpoint
rates and delta = lastRate - firstRate, classify direction by the fixed
thresholds 5 / 1 / -5 / -1, and report avg change per year over
numPoints - 1 intervals. -/
def summarizeTrend (trend : List ITrendRow) : Option TrendSummary :=
  if trend.length < 2 then none else
  let sorted := List.insertionSort iYearLE trend
  let first := sorted.headI
  let last := sorted.getLastI
  let firstRate := trendRate first
  let lastRate := trendRate last
  let delta := lastRate - firstRate
  let direction :=
    if 5 < delta then "tăng mạnh"
    else if 1 < delta then "tăng nhẹ"
    else if delta < -5 then "giảm mạnh"
    else if delta < -1 then "giảm nhẹ"
    else "ổn định"
  let years := if 1 < sorted.length then sorted.length - 1 else 1
  some
    { first_year := first.census_year
      last_year := last.census_year
      first_rate := firstRate
      last_rate := lastRate
      change := delta
      avg_change_per_year := delta / (years : ℚ)
      direction := direction }

/-- The C4 property: over a sorted reordering of the trend the summary
classifies delta by the claimed thresholds (the Vietnamese strings are the
code's labels for strong/mild increase/decrease and stable) and reports the
average per-year change over numPoints - 1 intervals. -/
def TrendSummarySpec (trend : List ITrendRow) : Prop :=
  ∃ (t : List ITrendRow) (s : TrendSummary), t.Perm trend ∧ t.Sorted iYearLE ∧
    summarizeTrend trend = some s ∧
    s.first_rate = trendRate t.headI ∧
    s.last_rate = trendRate t.getLastI ∧
    s.change = s.last_rate - s.first_rate ∧
    (5 < s.change → s.direction = "tăng mạnh") ∧
    (1 < s.change ∧ s.change ≤ 5 → s.direction = "tăng nhẹ") ∧
    (s.change < -5 → s.direction = "giảm mạnh") ∧
    (-5 ≤ s.change ∧ s.change < -1 → s.direction = "giảm nhẹ") ∧
    (-1 ≤ s.change ∧ s.change ≤ 1 → s.direction = "ổn định") ∧
    s.avg_change_per_year = s.change / ((trend.length - 1 : ℕ) : ℚ) ∧
    (trend.length = 2 → s.avg_change_per_year = s.change)

/-- C4: for a trend of at least 2 points, summarizeTrend takes delta =
lastRate - firstRate over the trend sorted ascending by census_year and
classifies it: delta above 5 strong increase, in (1, 5] mild increase, below
-5 strong decrease, in [-5, -1) mild decrease, in [-1, 1] stable; avg change
per year is delta over numPoints - 1, which is delta itself for a single
interval. -/
theorem summarizeTrend_spec (trend : List ITrendRow) (h : 2 ≤ trend.length) :
    TrendSummarySpec trend := by
  have hlen : ¬ trend.length < 2 := by omega
  refine ⟨List.insertionSort iYearLE trend, _, List.perm_insertionSort iYearLE trend,
    List.sorted_insertionSort iYearLE trend,
    (by unfold summarizeTrend; rw [if_neg hlen]), rfl, rfl, rfl, ?_, ?_, ?_, ?_, ?_, ?_, ?_⟩
  · intro h5
    dsimp only
    rw [if_pos h5]
  · intro hm
    dsimp only
    rw [if_neg (not_lt.mpr hm.2), if_pos hm.1]
  · intro hs
    dsimp only
    rw [if_neg (not_lt.mpr (show _ ≤ (5 : ℚ) by linarith)),
      if_neg (not_lt.mpr (show _ ≤ (1 : ℚ) by linarith)), if_pos hs]
  · intro hm
    dsimp only
    rw [if_neg (not_lt.mpr (show _ ≤ (5 : ℚ) by linarith [hm.2])),
      if_neg (not_lt.mpr (show _ ≤ (1 : ℚ) by linarith [hm.2])),
      if_neg (not_lt.mpr hm.1), if_pos hm.2]
  · intro hst
    dsimp only
    rw [if_neg (not_lt.mpr (show _ ≤ (5 : ℚ) by linarith [hst.2])),
      if_neg (not_lt.mpr hst.2),
      if_neg (not_lt.mpr (show (-5 : ℚ) ≤ _ by linarith [hst.1])),
      if_neg (not_lt.mpr hst.1)]
  · dsimp only
    rw [List.length_insertionSort, if_pos (by omega : 1 < trend.length)]
  · intro h2
    dsimp only
    rw [List.length_insertionSort, h2]
    norm_num

/-- Concrete internet trend used by the witness below: rates 70 then 78,
delta 8, unsorted on input. -/
def demoITrend : List ITrendRow := [⟨2022, none, none, some 78⟩, ⟨2019, none, none, some 70⟩]

/-- Witness for summarizeTrend_spec at a concrete trend. -/
theorem summarizeTrend_spec_witness :
    2 ≤ demoITrend.length ∧ TrendSummarySpec demoITrend :=
  ⟨by decide, summarizeTrend_spec demoITrend (by decide)⟩

/-- The structured reply the population route tries to JSON.parse from the
completion text (aiPopulation.js lines 287-304).  Every field may be absent
from the parsed object; openai_response models the raw completion-service
response body, which JSON.parse output could in principle also carry. -/
structure PopReply where
  summary : Option String
  highlights : Option (List String)
  projection : Option Projection
  raw_prompt : Option String
  openai_response : Option String
deriving DecidableEq, Repr

/-- JS falsiness of an optional string field: absent (undefined or null) or
the empty string are falsy; any other string is truthy. -/
def strFalsy : Option String → Bool
  | none => true
  | some s => decide (s = "")

/-- The two fill statements after the parse attempt in the population route
(aiPopulation.js lines 303-304): if (!structured.projection)
structured.projection = projection || null; if (!structured.raw_prompt)
structured.raw_prompt = prompt.  The projection test sees an object, falsy
exactly when null or absent; the raw_prompt test sees a string, falsy also
when empty, so an empty-string raw_prompt is overwritten with the prompt. -/
def popFill (s : PopReply) (projection : Option Projection) (prompt : String) : PopReply :=
  let s1 := if s.projection.isNone then { s with projection := projection } else s
  if strFalsy s1.raw_prompt then { s1 with raw_prompt := some prompt } else s1

/-- The population route's response assembly (aiPopulation.js lines 287-306):
on JSON.parse success the parsed object is used and only projection and
raw_prompt gaps are filled; on failure a fallback object is built with the raw
assistant text as summary, empty highlights, the computed projection (or
null), the prompt, and the whole completion-service body under
openai_response. -/
def popAssemble (parsed : Except String PopReply) (projection : Option Projection)
    (prompt oJson : String) : PopReply :=
  match parsed with
  | .ok s => popFill s projection prompt
  | .error assistant =>
    popFill
      { summary := some assistant
        highlights := some []
        projection := projection
        raw_prompt := some prompt
        openai_response := some oJson } projection prompt

/-- The structured reply the internet route tries to JSON.parse
(aiInternet.js lines 292-308); insights is an opaque JSON object modelled as
a field list, the empty object being []. -/
structure NetReply where
  summary : Option String
  highlights : Option (List String)
  insights : Option (List (String × String))
  raw_prompt : Option String
deriving DecidableEq, Repr

/-- The internet route's response assembly (aiInternet.js lines 292-308):
parse failure wraps the raw text with empty highlights and an EMPTY insights
object; then falsy insights/summary/highlights are filled with empty values
(the summary test is a string falsiness test, so an empty-string summary is
refilled with the same empty string; a present insights object or highlights
array is always truthy) and the prompt is attached unconditionally. -/
def netAssemble (parsed : Except String NetReply) (prompt : String) : NetReply :=
  let p0 : NetReply :=
    match parsed with
    | .ok q => q
    | .error content =>
      { summary := some content, highlights := some [], insights := some [], raw_prompt := none }
  let p1 := if p0.insights.isNone then { p0 with insights := some [] } else p0
  let p2 := if strFalsy p1.summary then { p1 with summary := some "" } else p1
  let p3 := if p2.highlights.isNone then { p2 with highlights := some [] } else p2
  { p3 with raw_prompt := some prompt }

/-- C5 (amended): on parse success the population route fills only a missing
projection (with the computed one, or null) and a falsy raw_prompt - absent
or the empty string, both overwritten with the prompt; missing summary or
highlights stay absent there.  On parse failure the population route returns
the raw text as summary, empty highlights, the computed projection or null,
the prompt, and the completion body.  The internet route fills a falsy
summary with the empty string and missing highlights/insights with empty
values, attaches the prompt unconditionally, and on parse failure wraps the
raw text with an empty insights object (not the deterministic aggregate). -/
theorem respNormalize_spec (p : PopReply) (q : NetReply) (proj : Option Projection)
    (prompt oJson raw : String) :
    popAssemble (.ok p) proj prompt oJson =
      { p with
        projection := (if p.projection.isNone then proj else p.projection),
        raw_prompt := (if strFalsy p.raw_prompt then some prompt else p.raw_prompt) } ∧
    popAssemble (.error raw) proj prompt oJson =
      { summary := some raw, highlights := some [], projection := proj,
        raw_prompt := some prompt, openai_response := some oJson } ∧
    netAssemble (.ok q) prompt =
      { summary := (if strFalsy q.summary then some "" else q.summary),
        highlights := (if q.highlights.isNone then some [] else q.highlights),
        insights := (if q.insights.isNone then some [] else q.insights),
        raw_prompt := some prompt } ∧
    netAssemble (.error raw) prompt =
      { summary := some raw, highlights := some [], insights := some [],
        raw_prompt := some prompt } := by
  refine ⟨?_, ?_, ?_, ?_⟩
  · rcases hp : p.projection with _ | pv <;> rcases hr : p.raw_prompt with _ | rv
    · simp [popAssemble, popFill, strFalsy, hp, hr]
    · by_cases hv : rv = "" <;> simp [popAssemble, popFill, strFalsy, hp, hr, hv]
    · simp [popAssemble, popFill, strFalsy, hp, hr]
    · by_cases hv : rv = ""
      · simp [popAssemble, popFill, strFalsy, hp, hr, hv]
      · simp [popAssemble, popFill, strFalsy, hp, hr, hv]
        rw [← hp, ← hr]
  · by_cases hprompt : prompt = "" <;> cases hproj : proj <;>
      simp [popAssemble, popFill, strFalsy, hproj, hprompt]
  · rcases hs : q.summary with _ | sv
    · cases hi : q.insights <;> cases hh : q.highlights <;>
        simp [netAssemble, strFalsy, hi, hs, hh]
    · by_cases hv : sv = "" <;> cases hi : q.insights <;> cases hh : q.highlights <;>
        simp [netAssemble, strFalsy, hi, hs, hh, hv]
  · by_cases hraw : raw = "" <;> simp [netAssemble, strFalsy, hraw]

/-- C5 counterexample: the claim says a parsed reply with a missing summary
gets the empty string, but the population route leaves it absent; and the
claim says the internet fallback's insights is the deterministic aggregate,
but it is the constant empty object - not null and carrying no field. -/
theorem respNormalize_counterexample :
    (popAssemble (.ok ⟨none, none, none, none, none⟩) none "P" "J").summary = none ∧
      (none : Option String) ≠ some "" ∧
      (netAssemble (.error "reply") "P").insights = some [] ∧
      (some ([] : List (String × String)) : Option (List (String × String))) ≠ none := by
  refine ⟨rfl, by decide, rfl, by decide⟩

/-- C10: the population route's response carries the complete completion
body under openai_response exactly on the parse-failure path; a parse success
passes through whatever the parsed object itself had and never adds the
key. -/
theorem openai_key_spec (p : PopReply) (proj : Option Projection)
    (prompt oJson raw : String) :
    (popAssemble (.error raw) proj prompt oJson).openai_response = some oJson ∧
    (popAssemble (.ok p) proj prompt oJson).openai_response = p.openai_response := by
  constructor
  · simp [popAssemble, popFill, apply_ite PopReply.openai_response]
  · simp [popAssemble, popFill, apply_ite PopReply.openai_response]

/-- The request body of the internet route (aiInternet.js line 214); year is
absent or a number (a zero year is falsy and rejected like an absent one). -/
structure NetDatasets where
  internet_access : Option (List InternetRow)
  internet_trend : Option (List ITrendRow)
deriving DecidableEq, Repr

structure NetRequest where
  year : Option ℚ
  province : Option String
  datasets : Option NetDatasets
deriving DecidableEq, Repr

/-- JS truthiness of an optional numeric request field. -/
def truthyNum : Option ℚ → Bool
  | none => false
  | some v => decide (v ≠ 0)

/-- Outcome of the internet route's validation phase: an HTTP rejection with
its status and message, or the rows that flow on to aggregateInternetAccess
and the completion call. -/
inductive NetRouteOutcome where
  | reject (status : ℕ) (msg : String)
  | proceed (accessRows : List InternetRow) (trendRows : List ITrendRow)
deriving DecidableEq, Repr

/-- The 400 message of the internet route for a missing year. -/
def netMissingYearMsg : String := "Thiếu tham số year trong request body."

/-- The 400 message of the internet route for a missing or empty
internet_access dataset (aiInternet.js lines 235-240). -/
def netMissingAccessMsg : String :=
  "Thiếu datasets.internet_access trong body. Vui lòng gửi dữ liệu Internet access hiện tại từ frontend."

/-- The validation phase of the internet route (aiInternet.js lines 212-243):
reject 400 on a falsy year, else take accessRows/trendRows from the inline
datasets (empty when absent or not an array), reject 400 when accessRows is
empty, else proceed to aggregation. -/
def internetRouteValidate (req : NetRequest) : NetRouteOutcome :=
  if truthyNum req.year = false then .reject 400 netMissingYearMsg
  else if ((req.datasets.bind NetDatasets.internet_access).getD []).isEmpty then
    .reject 400 netMissingAccessMsg
  else
    .proceed ((req.datasets.bind NetDatasets.internet_access).getD [])
      ((req.datasets.bind NetDatasets.internet_trend).getD [])

/-- One row of population_by_province as used by the population route. -/
structure ProvRow where
  province_code : Option String
  province_name : Option String
  population : Option ℚ
deriving DecidableEq, Repr

/-- One row of age_structure as used by the population route. -/
structure AgeRow where
  age_group : Option String
  population : Option ℚ
deriving DecidableEq, Repr

/-- One row of the sex dataset as used by the population route (source field
name: the third dataset key of aiPopulation.js line 238). -/
structure SexRow where
  sex : Option String
  population : Option ℚ
deriving DecidableEq, Repr

/-- The population route's incoming datasets object (absent or non-array
fields modelled as none); sex_rows models the sex dataset of
aiPopulation.js line 238. -/
structure PopDatasetsIn where
  population_by_province : Option (List ProvRow)
  population_trend : Option (List TrendPoint)
  age_structure : Option (List AgeRow)
  sex_rows : Option (List SexRow)
deriving DecidableEq, Repr

/-- The population route's datasets after the defensive coercions of
aiPopulation.js lines 235-238. -/
structure PopPrepared where
  population_by_province : List ProvRow
  population_trend : List TrendPoint
  age_structure : List AgeRow
  sex_rows : List SexRow
deriving DecidableEq, Repr

/-- The defensive coercions of the population route (aiPopulation.js lines
235-238): data.x = Array.isArray(data.x) ? data.x : []. -/
def popPrepareDatasets (d : PopDatasetsIn) : PopPrepared :=
  { population_by_province := d.population_by_province.getD []
    population_trend := d.population_trend.getD []
    age_structure := d.age_structure.getD []
    sex_rows := d.sex_rows.getD [] }

/-- C6: a request to the internet route with a present (truthy) year but an
absent or empty datasets.internet_access is rejected with HTTP 400 and the
missing-required-dataset message, and the rows never reach aggregation (only
a proceed outcome carries rows onward); for the population route a missing
dataset instead degrades to the empty sequence. -/
theorem required_dataset_validation (req : NetRequest) (d : PopDatasetsIn)
    (hYear : truthyNum req.year = true)
    (hMissing : (req.datasets.bind NetDatasets.internet_access).getD [] = []) :
    internetRouteValidate req = .reject 400 netMissingAccessMsg ∧
    (d.population_trend = none → (popPrepareDatasets d).population_trend = []) ∧
    (d.population_by_province = none → (popPrepareDatasets d).population_by_province = []) := by
  refine ⟨?_, ?_, ?_⟩
  · unfold internetRouteValidate
    rw [hYear, hMissing]
    simp
  · intro h
    simp [popPrepareDatasets, h]
  · intro h
    simp [popPrepareDatasets, h]

/-- Concrete internet-route request with a year but no datasets. -/
def demoNetRequest : NetRequest := { year := some 2024, province := none, datasets := none }

/-- Witness for required_dataset_validation on a concrete request. -/
theorem required_dataset_validation_witness :
    truthyNum demoNetRequest.year = true ∧
      internetRouteValidate demoNetRequest = .reject 400 netMissingAccessMsg :=
  ⟨by with_unfolding_all decide,
    (required_dataset_validation demoNetRequest ⟨none, none, none, none⟩
      (by with_unfolding_all decide) (by decide)).1⟩

/-- Outcome of one fetch(...) call: a resolved response with ok body, a
resolved response with a non-success status (res.ok false), or a rejected
promise (network/transport failure). -/
inductive FetchOutcome (α : Type) where
  | ok (data : α)
  | httpError (status : ℕ)
  | rejected
deriving DecidableEq, Repr

/-- The partial results object of safeFetchServerReports; a missing key means
that dataset was not assigned. -/
structure PopFetched (α : Type) where
  population_by_province : Option α
  population_trend : Option α
  age_structure : Option α
  sex_rows : Option α
deriving DecidableEq, Repr

def fetchData {α : Type} : FetchOutcome α → Option α
  | .ok d => some d
  | _ => none

def isRejected {α : Type} : FetchOutcome α → Bool
  | .rejected => true
  | _ => false

def isOkFetch {α : Type} : FetchOutcome α → Bool
  | .ok _ => true
  | _ => false

/-- safeFetchServerReports (aiPopulation.js lines 58-84): the four fetches go
through one Promise.all, so when any of them rejects the catch returns the
results object before any assignment - every dataset is dropped, not only the
failed one.  When all four resolve, each dataset is kept exactly when its
response was ok.  (Failures of res.json() after a partial assignment are not
modelled.) -/
def safeFetchServerReports {α : Type} (byProv trendF ages sexes : FetchOutcome α) :
    PopFetched α :=
  if isRejected byProv || isRejected trendF || isRejected ages || isRejected sexes then
    ⟨none, none, none, none⟩
  else ⟨fetchData byProv, fetchData trendF, fetchData ages, fetchData sexes⟩

/-- The chatbot topics (chatbot.js detectTopic). -/
inductive Topic where
  | internet
  | urban_rural
  | population
deriving DecidableEq, Repr

/-- The outcomes of the report-endpoint fetches the chatbot loader may
issue. -/
structure ChatFetches (α : Type) where
  internet_access : FetchOutcome α
  internet_trend : FetchOutcome α
  urban_rural_by_province : FetchOutcome α
  urban_rural_summary : FetchOutcome α
  population_by_province : FetchOutcome α
  population_trend : FetchOutcome α
  age_structure : FetchOutcome α
  sex_rows : FetchOutcome α
deriving DecidableEq, Repr

/-- The datasets object built by loadDatasetsForTopic. -/
structure ChatDatasets (α : Type) where
  internet_access : Option α := none
  internet_trend : Option α := none
  urban_rural_by_province : Option α := none
  urban_rural_summary : Option α := none
  population_by_province : Option α := none
  population_trend : Option α := none
  age_structure : Option α := none
  sex_rows : Option α := none
deriving DecidableEq, Repr

/-- fetchJson of chatbot.js (lines 170-195): throws on a non-ok response and
on a rejected fetch, so any failure becomes an exception. -/
def fetchJsonM {α : Type} : FetchOutcome α → Except String α
  | .ok d => .ok d
  | .httpError s => .error ("Fetch failed: " ++ toString s)
  | .rejected => .error "network failure"

/-- loadDatasetsForTopic of chatbot.js (lines 198-243): per topic the needed
endpoints are awaited one after the other with no try/catch, so the first
fetchJson failure aborts the whole load (the route's catch turns it into a
500). -/
def loadDatasetsForTopic {α : Type} (topic : Topic) (f : ChatFetches α) :
    Except String (ChatDatasets α) :=
  match topic with
  | .internet =>
    match fetchJsonM f.internet_access with
    | .error e => .error e
    | .ok a =>
      match fetchJsonM f.internet_trend with
      | .error e => .error e
      | .ok t => .ok { internet_access := some a, internet_trend := some t }
  | .urban_rural =>
    match fetchJsonM f.urban_rural_by_province with
    | .error e => .error e
    | .ok b =>
      match fetchJsonM f.urban_rural_summary with
      | .error e => .error e
      | .ok s => .ok { urban_rural_by_province := some b, urban_rural_summary := some s }
  | .population =>
    match fetchJsonM f.population_by_province with
    | .error e => .error e
    | .ok b =>
      match fetchJsonM f.population_trend with
      | .error e => .error e
      | .ok t =>
        match fetchJsonM f.age_structure with
        | .error e => .error e
        | .ok a =>
          match fetchJsonM f.sex_rows with
          | .error e => .error e
          | .ok s =>
            .ok { population_by_province := some b, population_trend := some t,
                  age_structure := some a, sex_rows := some s }

/-- The fetch outcomes a topic depends on. -/
def neededFetches {α : Type} (topic : Topic) (f : ChatFetches α) : List (FetchOutcome α) :=
  match topic with
  | .internet => [f.internet_access, f.internet_trend]
  | .urban_rural => [f.urban_rural_by_province, f.urban_rural_summary]
  | .population =>
    [f.population_by_province, f.population_trend, f.age_structure, f.sex_rows]

/-- The amended C7 property: in safeFetchServerReports a non-ok response
drops only its own dataset while siblings are kept, but one rejected fetch
drops all four; the chatbot loader succeeds exactly when every needed fetch
is ok, so one failure fails the whole load. -/
def FetchFailureSpec {α : Type} (byProv trendF ages sexes : FetchOutcome α)
    (topic : Topic) (f : ChatFetches α) : Prop :=
  ((isRejected byProv || isRejected trendF || isRejected ages || isRejected sexes) = false →
    safeFetchServerReports byProv trendF ages sexes =
      ⟨fetchData byProv, fetchData trendF, fetchData ages, fetchData sexes⟩) ∧
  ((isRejected byProv || isRejected trendF || isRejected ages || isRejected sexes) = true →
    safeFetchServerReports byProv trendF ages sexes = ⟨none, none, none, none⟩) ∧
  ((∃ d, loadDatasetsForTopic topic f = .ok d) ↔ (neededFetches topic f).all isOkFetch = true)

/-- C7 (amended): fetch-failure isolation holds only for non-ok responses in
safeFetchServerReports; a rejected fetch there drops the sibling results too,
and in the chatbot loader any single fetch failure fails the whole load. -/
theorem fetch_failure_semantics {α : Type} (byProv trendF ages sexes : FetchOutcome α)
    (topic : Topic) (f : ChatFetches α) :
    FetchFailureSpec byProv trendF ages sexes topic f := by
  refine ⟨?_, ?_, ?_⟩
  · intro h
    unfold safeFetchServerReports
    rw [h]
    simp
  · intro h
    unfold safeFetchServerReports
    rw [h]
    simp
  · cases topic
    · rcases ha : f.internet_access with d | st | _ <;>
        rcases hb : f.internet_trend with d2 | st2 | _ <;>
        simp [loadDatasetsForTopic, fetchJsonM, neededFetches, isOkFetch, ha, hb]
    · rcases ha : f.urban_rural_by_province with d | st | _ <;>
        rcases hb : f.urban_rural_summary with d2 | st2 | _ <;>
        simp [loadDatasetsForTopic, fetchJsonM, neededFetches, isOkFetch, ha, hb]
    · rcases ha : f.population_by_province with d | st | _ <;>
        rcases hb : f.population_trend with d2 | st2 | _ <;>
        rcases hc : f.age_structure with d3 | st3 | _ <;>
        rcases hd : f.sex_rows with d4 | st4 | _ <;>
        simp [loadDatasetsForTopic, fetchJsonM, neededFetches, isOkFetch, ha, hb, hc, hd]

/-- Witness for fetch_failure_semantics: four ok fetches are all kept. -/
theorem fetch_failure_semantics_witness :
    safeFetchServerReports (FetchOutcome.ok (1 : ℕ)) (FetchOutcome.ok 2)
        (FetchOutcome.ok 3) (FetchOutcome.ok 4) =
      ⟨some 1, some 2, some 3, some 4⟩ :=
  (fetch_failure_semantics (FetchOutcome.ok 1) (FetchOutcome.ok 2) (FetchOutcome.ok 3)
      (FetchOutcome.ok 4) Topic.internet
      ⟨FetchOutcome.ok 1, FetchOutcome.ok 1, FetchOutcome.ok 1, FetchOutcome.ok 1,
        FetchOutcome.ok 1, FetchOutcome.ok 1, FetchOutcome.ok 1, FetchOutcome.ok 1⟩).1
    (by decide)

/-- C7 counterexample: one rejected fetch in safeFetchServerReports also
drops the sibling dataset that had fetched fine, and one non-ok fetch in the
chatbot loader fails the whole load instead of yielding an empty dataset. -/
theorem fetch_isolation_counterexample :
    (safeFetchServerReports (FetchOutcome.ok (1 : ℕ)) FetchOutcome.rejected
        (FetchOutcome.ok 2) (FetchOutcome.ok 3)).population_by_province = none ∧
      loadDatasetsForTopic Topic.internet
          ⟨FetchOutcome.httpError 500, FetchOutcome.ok (0 : ℕ), FetchOutcome.ok 0,
            FetchOutcome.ok 0, FetchOutcome.ok 0, FetchOutcome.ok 0, FetchOutcome.ok 0,
            FetchOutcome.ok 0⟩ =
        Except.error "Fetch failed: 500" := by
  exact ⟨rfl, rfl⟩

/-- The ten characters matched by the digit class of the year regex of
detectYear (chatbot.js lines 121-126). -/
def isDigitChar (c : Char) : Bool :=
  decide (c ∈ ['0', '1', '2', '3', '4', '5', '6', '7', '8', '9'])

/-- Numeric value of a digit character. -/
def digitVal (c : Char) : ℕ := c.toNat - 48

/-- Attempt of the regex 20dd at the head of the text: succeeds when the
first four characters are 2, 0 and two digits. -/
def matchYearAt (l : List Char) : Option ℕ :=
  match l with
  | a :: b :: c :: d :: _ =>
    if a = '2' ∧ b = '0' ∧ isDigitChar c = true ∧ isDigitChar d = true then
      some (2000 + 10 * digitVal c + digitVal d)
    else none
  | _ => none

/-- Leftmost match of the regex 20dd over the text, as
String(text).match(/20dd/) finds it: try each position left to right. -/
def scanYear : List Char → Option ℕ
  | [] => none
  | c :: rest =>
    match matchYearAt (c :: rest) with
    | some y => some y
    | none => scanYear rest

/-- detectYear (chatbot.js lines 121-126): the first match of the regex, put
through the guard y < 2000 || y > 2100 (which, as proved below, never
fires), with the default year when there is no match. -/
def detectYear (text : List Char) (defaultYear : ℕ) : ℕ :=
  match scanYear text with
  | some y => if y < 2000 ∨ 2100 < y then defaultYear else y
  | none => defaultYear

/-- Maximal runs of digit characters in the text, for the claim's notion of a
4-digit token. -/
def digitRunsAux : List Char → List Char → List (List Char)
  | [], acc => if acc.isEmpty then [] else [acc.reverse]
  | c :: rest, acc =>
    if isDigitChar c then digitRunsAux rest (c :: acc)
    else if acc.isEmpty then digitRunsAux rest []
    else acc.reverse :: digitRunsAux rest []

def digitRuns (l : List Char) : List (List Char) := digitRunsAux l []

def valOfDigits (run : List Char) : ℕ := run.foldl (fun n c => 10 * n + digitVal c) 0

/-- The first 4-digit token of the text, written from the claim's words. -/
def firstFourDigitToken (text : List Char) : Option ℕ :=
  (((digitRuns text).filter fun r => decide (r.length = 4)).head?).map valOfDigits

theorem digitVal_le (c : Char) (h : isDigitChar c = true) : digitVal c ≤ 9 := by
  unfold isDigitChar at h
  rw [decide_eq_true_eq] at h
  fin_cases h <;> decide

theorem matchYearAt_range (l : List Char) (y : ℕ) (h : matchYearAt l = some y) :
    2000 ≤ y ∧ y ≤ 2099 := by
  rcases l with _ | ⟨a, _ | ⟨b, _ | ⟨c, _ | ⟨d, rest⟩⟩⟩⟩ <;> simp [matchYearAt] at h
  obtain ⟨⟨h2, h0, hc, hd⟩, hy⟩ := h
  have b1 := digitVal_le c hc
  have b2 := digitVal_le d hd
  omega

theorem scanYear_range (text : List Char) :
    ∀ y, scanYear text = some y → 2000 ≤ y ∧ y ≤ 2099 := by
  induction text with
  | nil => intro y h; simp [scanYear] at h
  | cons c rest ih =>
    intro y h
    unfold scanYear at h
    cases hm : matchYearAt (c :: rest) with
    | some z =>
      rw [hm] at h
      cases h
      exact matchYearAt_range _ _ hm
    | none =>
      rw [hm] at h
      exact ih y h

/-- C9 (amended): year detection returns the number denoted by the leftmost
substring of the form 2, 0, digit, digit - which always lies in [2000, 2099],
so the range guard of the code never fires - and the default year when no
such substring exists.  It does not look for 4-digit tokens: a year token
like 2100 never matches (see the counterexample). -/
theorem detectYear_spec (text : List Char) (d : ℕ) :
    detectYear text d = (scanYear text).getD d ∧
      ∀ y, scanYear text = some y → 2000 ≤ y ∧ y ≤ 2099 := by
  constructor
  · unfold detectYear
    cases hs : scanYear text with
    | none => rfl
    | some y =>
      have hr := scanYear_range text y hs
      show (if y < 2000 ∨ 2100 < y then d else y) = (some y).getD d
      rw [if_neg (by omega)]
      rfl
  · exact scanYear_range text

/-- Witness for detectYear_spec on a concrete text containing 2045. -/
theorem detectYear_spec_witness :
    detectYear ['a', '2', '0', '4', '5'] 7 = (scanYear ['a', '2', '0', '4', '5']).getD 7 ∧
      (2000 ≤ 2045 ∧ 2045 ≤ 2099) :=
  ⟨(detectYear_spec ['a', '2', '0', '4', '5'] 7).1,
    (detectYear_spec ['a', '2', '0', '4', '5'] 7).2 2045 (by decide)⟩

/-- C9 counterexample: 2100 is the first (and only) 4-digit token of the text
"2100" and lies in the claimed range [2000, 2100], so the claim demands 2100;
the code's regex cannot match it and detectYear falls back to the default
2024. -/
theorem detectYear_counterexample :
    firstFourDigitToken ['2', '1', '0', '0'] = some 2100 ∧
      (2000 ≤ 2100 ∧ 2100 ≤ 2100) ∧
      detectYear ['2', '1', '0', '0'] 2024 = 2024 ∧ (2024 : ℕ) ≠ 2100 := by
  refine ⟨by decide, by decide, by decide, by decide⟩
